import Mathlib

/-!
Verification of `Group 7 Database management/setup_database.py`.

The program is a SQLite schema initializer: `create_connection` opens (or
creates) a database file and enables foreign-key enforcement, and
`create_tables` issues nine `CREATE TABLE IF NOT EXISTS` statements in a
fixed order, catching any `sqlite3.Error` per the source's try/except blocks.

The embedding below transcribes the nine DDL statements into Lean data
(`TableSchema`), models `create_connection` / `create_tables` / `main` with
explicit success/failure oracles in place of the exceptions SQLite may raise,
and models the runtime behaviour SQLite gives to the declared constraints
(CHECK, NOT NULL, UNIQUE, and the ON DELETE foreign-key actions) as a small
relational semantics over rows, so that the row-level consequences of the
declared schema can be proved.
-/


/-- A SQL value as stored by the embedded store: an integer, a text value, or NULL. -/
inductive Value where
  | intV : Int → Value
  | textV : String → Value
  | nullV : Value
deriving DecidableEq, Repr

/-- A row is an association list from column names to values. -/
abbrev Row := List (String × Value)

/-- The SQL column types appearing in the DDL of `setup_database.py`. -/
inductive SqlType where
  | integer : SqlType
  | intT : SqlType
  | varchar : Nat → SqlType
  | date : SqlType
  | timestamp : SqlType
  | text : SqlType
deriving DecidableEq, Repr

/-- A DEFAULT clause appearing in the DDL: a literal integer or CURRENT_TIMESTAMP. -/
inductive DefaultClause where
  | defaultInt : Int → DefaultClause
  | currentTimestamp : DefaultClause
deriving DecidableEq, Repr

/-- The only CHECK constraint form used by the DDL: `CHECK (col >= 0)`. -/
inductive CheckClause where
  | geZero : String → CheckClause
deriving DecidableEq, Repr

/-- An ON DELETE action of a foreign key, as written in the DDL. -/
inductive FKAction where
  | cascade : FKAction
  | setNull : FKAction
  | restrict : FKAction
deriving DecidableEq, Repr

/-- A column declaration: name, type, and the column constraints from the DDL. -/
structure Column where
  name : String
  type : SqlType
  primaryKey : Bool := false
  notNull : Bool := false
  unique : Bool := false
  dflt : Option DefaultClause := none
  chk : Option CheckClause := none
deriving DecidableEq, Repr

/-- A FOREIGN KEY clause: local column, referenced table/column, ON DELETE action. -/
structure ForeignKey where
  column : String
  parentTable : String
  parentColumn : String
  onDelete : FKAction
deriving DecidableEq, Repr

/-- A CREATE TABLE statement's content: table name, columns, foreign keys. -/
structure TableSchema where
  name : String
  columns : List Column
  foreignKeys : List ForeignKey := []
deriving DecidableEq, Repr

/-- Transcription of `sql_create_user_account_table`. -/
def userAccountTable : TableSchema :=
  { name := "UserAccount"
    columns :=
      [ { name := "UserID", type := .integer, primaryKey := true }
      , { name := "FullName", type := .varchar 255, notNull := true }
      , { name := "Role", type := .varchar 100 }
      , { name := "Username", type := .varchar 100, notNull := true, unique := true }
      , { name := "PasswordHash", type := .varchar 255, notNull := true }
      , { name := "AccessLevel", type := .varchar 50 } ] }

/-- Transcription of `sql_create_production_line_table`. -/
def productionLineTable : TableSchema :=
  { name := "ProductionLine"
    columns :=
      [ { name := "ProductionLineID", type := .integer, primaryKey := true }
      , { name := "LineName", type := .varchar 255, notNull := true, unique := true }
      , { name := "Status", type := .varchar 50 } ] }

/-- Transcription of `sql_create_production_batch_table`. -/
def productionBatchTable : TableSchema :=
  { name := "ProductionBatch"
    columns :=
      [ { name := "BatchID", type := .integer, primaryKey := true }
      , { name := "ProductionLineID", type := .intT, notNull := true }
      , { name := "ShiftDate", type := .date, notNull := true }
      , { name := "ShiftType", type := .varchar 50 }
      , { name := "QuantityProduced", type := .intT, notNull := true,
          chk := some (.geZero "QuantityProduced") }
      , { name := "CreatedByUserID", type := .intT }
      , { name := "CreatedAt", type := .timestamp, dflt := some .currentTimestamp } ]
    foreignKeys :=
      [ { column := "ProductionLineID", parentTable := "ProductionLine",
          parentColumn := "ProductionLineID", onDelete := .cascade }
      , { column := "CreatedByUserID", parentTable := "UserAccount",
          parentColumn := "UserID", onDelete := .setNull } ] }

/-- Transcription of `sql_create_inventory_item_table`. -/
def inventoryItemTable : TableSchema :=
  { name := "InventoryItem"
    columns :=
      [ { name := "InventoryItemID", type := .integer, primaryKey := true }
      , { name := "ItemType", type := .varchar 100 }
      , { name := "ItemName", type := .varchar 255, notNull := true, unique := true }
      , { name := "QuantityInStock", type := .intT, notNull := true,
          dflt := some (.defaultInt 0), chk := some (.geZero "QuantityInStock") }
      , { name := "ReorderThreshold", type := .intT,
          dflt := some (.defaultInt 0), chk := some (.geZero "ReorderThreshold") }
      , { name := "LastUpdated", type := .timestamp, dflt := some .currentTimestamp } ] }

/-- Transcription of `sql_create_inventory_transaction_table`. -/
def inventoryTransactionTable : TableSchema :=
  { name := "InventoryTransaction"
    columns :=
      [ { name := "TransactionID", type := .integer, primaryKey := true }
      , { name := "InventoryItemID", type := .intT, notNull := true }
      , { name := "BatchID", type := .intT }
      , { name := "QuantityChange", type := .intT, notNull := true }
      , { name := "Reason", type := .varchar 255 }
      , { name := "TransactionDate", type := .timestamp, dflt := some .currentTimestamp }
      , { name := "UpdatedByUserID", type := .intT } ]
    foreignKeys :=
      [ { column := "InventoryItemID", parentTable := "InventoryItem",
          parentColumn := "InventoryItemID", onDelete := .cascade }
      , { column := "BatchID", parentTable := "ProductionBatch",
          parentColumn := "BatchID", onDelete := .setNull }
      , { column := "UpdatedByUserID", parentTable := "UserAccount",
          parentColumn := "UserID", onDelete := .setNull } ] }

/-- Transcription of `sql_create_defect_type_table`. -/
def defectTypeTable : TableSchema :=
  { name := "DefectType"
    columns :=
      [ { name := "DefectTypeID", type := .integer, primaryKey := true }
      , { name := "DefectName", type := .varchar 255, notNull := true, unique := true } ] }

/-- Transcription of `sql_create_defect_log_table`. -/
def defectLogTable : TableSchema :=
  { name := "DefectLog"
    columns :=
      [ { name := "DefectID", type := .integer, primaryKey := true }
      , { name := "BatchID", type := .intT, notNull := true }
      , { name := "DefectTypeID", type := .intT, notNull := true }
      , { name := "SeverityLevel", type := .varchar 50 }
      , { name := "DefectDescription", type := .text }
      , { name := "LoggedByUserID", type := .intT }
      , { name := "DateLogged", type := .timestamp, dflt := some .currentTimestamp } ]
    foreignKeys :=
      [ { column := "BatchID", parentTable := "ProductionBatch",
          parentColumn := "BatchID", onDelete := .cascade }
      , { column := "DefectTypeID", parentTable := "DefectType",
          parentColumn := "DefectTypeID", onDelete := .restrict }
      , { column := "LoggedByUserID", parentTable := "UserAccount",
          parentColumn := "UserID", onDelete := .setNull } ] }

/-- Transcription of `sql_create_return_reason_table`. -/
def returnReasonTable : TableSchema :=
  { name := "ReturnReason"
    columns :=
      [ { name := "ReturnReasonID", type := .integer, primaryKey := true }
      , { name := "ReasonDescription", type := .varchar 255, notNull := true, unique := true } ] }

/-- Transcription of `sql_create_return_log_table`. -/
def returnLogTable : TableSchema :=
  { name := "ReturnLog"
    columns :=
      [ { name := "ReturnID", type := .integer, primaryKey := true }
      , { name := "CustomerID", type := .intT }
      , { name := "BatchID", type := .intT }
      , { name := "ReturnReasonID", type := .intT }
      , { name := "DateReturned", type := .timestamp, dflt := some .currentTimestamp }
      , { name := "Notes", type := .text }
      , { name := "ProcessedByUserID", type := .intT } ]
    foreignKeys :=
      [ { column := "BatchID", parentTable := "ProductionBatch",
          parentColumn := "BatchID", onDelete := .setNull }
      , { column := "ReturnReasonID", parentTable := "ReturnReason",
          parentColumn := "ReturnReasonID", onDelete := .setNull }
      , { column := "ProcessedByUserID", parentTable := "UserAccount",
          parentColumn := "UserID", onDelete := .setNull } ] }

/-- The nine statements in the exact order `create_tables` executes them. -/
def tableStmts : List TableSchema :=
  [ userAccountTable
  , productionLineTable
  , productionBatchTable
  , inventoryItemTable
  , inventoryTransactionTable
  , defectTypeTable
  , defectLogTable
  , returnReasonTable
  , returnLogTable ]

/-- The schema part of the store: the list of tables present, in creation order. -/
abbrev SchemaDB := List TableSchema

/-- A fresh (empty) database location: no tables. -/
def emptyDB : SchemaDB := []

/-- Does a table of this name exist in the store? -/
def hasT (db : SchemaDB) (n : String) : Bool :=
  db.any (fun t => t.name = n)

/-- Semantics of one `CREATE TABLE IF NOT EXISTS` statement: a no-op when a
table of the same name exists, otherwise the table is added. -/
def createTableIfNotExists (db : SchemaDB) (t : TableSchema) : SchemaDB :=
  if hasT db t.name then db else db ++ [t]

/-- The pure effect of a full, error-free run of `create_tables` on the schema. -/
def create_tables_pure (db : SchemaDB) : SchemaDB :=
  tableStmts.foldl createTableIfNotExists db

/-- A live connection handle. `fkEnabled` records whether the
`PRAGMA foreign_keys = ON;` statement ran without error on it. -/
structure Conn where
  fkEnabled : Bool
deriving DecidableEq, Repr

/-- `create_connection` from the source, with the two points where
`sqlite3.Error` can arise made explicit: `connectOk` is whether
`sqlite3.connect` succeeds, `pragmaOk` whether the PRAGMA statement does.
Both failures are caught by the same `except` block, which only prints;
since `conn` is assigned before the PRAGMA runs, a PRAGMA failure still
returns the open connection. Returns the handle and the printed lines. -/
def create_connection (connectOk pragmaOk : Bool) : Option Conn × List String :=
  if connectOk then
    ( some { fkEnabled := pragmaOk }
    , ["SQLite version: ...", "Successfully connected to database: ..."]
        ++ (if pragmaOk then [] else ["sqlite3.Error: ..."]) )
  else (none, ["sqlite3.Error: ..."])

/-- The per-statement body of `create_tables`: execute the remaining CREATE
statements in order, printing `Creating table X...` before each. `ok i`
says whether the `i`-th `cursor.execute` raises `sqlite3.Error`; the
source's `except` block catches the first error, prints
`Error creating tables: ...`, and returns with no rollback, so the tables
already created stay. -/
def runStmts (ok : Nat → Bool) : Nat → List TableSchema → SchemaDB → SchemaDB × List String
  | _, [], db => (db, ["All tables created successfully (if they did not already exist)."])
  | i, t :: ts, db =>
    if ok i then
      let rest := runStmts ok (i + 1) ts (createTableIfNotExists db t)
      (rest.1, ("Creating table " ++ t.name ++ "...") :: rest.2)
    else (db, [("Creating table " ++ t.name ++ "..."), "Error creating tables: ..."])

/-- `create_tables` from the source: the nine statements, executed in order
against the store, under the error oracle `ok`. -/
def create_tables (ok : Nat → Bool) (db : SchemaDB) : SchemaDB × List String :=
  runStmts ok 0 tableStmts db

/-- The oracle of an error-free run: no `cursor.execute` call fails. -/
def allOk : Nat → Bool := fun _ => true

/-- `main` from the source: build the path, call `create_connection`, and
only when the returned handle is non-null call `create_tables`; otherwise
print the error line and leave the store untouched. -/
def main_run (connectOk pragmaOk : Bool) (ok : Nat → Bool) (db : SchemaDB) :
    SchemaDB × List String :=
  match create_connection connectOk pragmaOk with
  | (some _, msgs) =>
    let r := create_tables ok db
    (r.1, msgs ++ r.2 ++ ["Database setup complete. File saved at: ..."])
  | (none, msgs) => (db, msgs ++ ["Error! Cannot create the database connection."])

/-- A printed line reporting an error: one of the three error prints of the
source (the caught `sqlite3.Error`, the caught DDL error, and `main`'s
cannot-connect line). -/
def isErrorLine (s : String) : Bool :=
  s = "sqlite3.Error: ..." || s = "Error creating tables: ..." ||
    s = "Error! Cannot create the database connection."

/-- Look up a column of a table by name. -/
def colOf (t : TableSchema) (c : String) : Option Column :=
  t.columns.find? (fun col => col.name = c)

/-- The column exists in the table. -/
def specHasCol (t : TableSchema) (c : String) : Bool :=
  (colOf t c).isSome

/-- The column exists and carries a UNIQUE constraint. -/
def specUnique (t : TableSchema) (c : String) : Bool :=
  match colOf t c with
  | some col => col.unique
  | none => false

/-- The column exists and is NOT NULL (a required field). -/
def specRequired (t : TableSchema) (c : String) : Bool :=
  match colOf t c with
  | some col => col.notNull
  | none => false

/-- The column exists, is nullable (optional), and has no NOT NULL marker. -/
def specOptionalCol (t : TableSchema) (c : String) : Bool :=
  match colOf t c with
  | some col => !col.notNull
  | none => false

/-- The column exists with a `CHECK (c >= 0)` constraint. -/
def specGeZero (t : TableSchema) (c : String) : Bool :=
  match colOf t c with
  | some col => decide (col.chk = some (.geZero c))
  | none => false

/-- The column exists with `DEFAULT 0`. -/
def specDefaultZero (t : TableSchema) (c : String) : Bool :=
  match colOf t c with
  | some col => decide (col.dflt = some (.defaultInt 0))
  | none => false

/-- The column exists with `DEFAULT CURRENT_TIMESTAMP`. -/
def specDefaultNow (t : TableSchema) (c : String) : Bool :=
  match colOf t c with
  | some col => decide (col.dflt = some .currentTimestamp)
  | none => false

/-- The table declares a foreign key on column `c` to `p`, with this ON DELETE action. -/
def specFK (t : TableSchema) (c : String) (p : String) (a : FKAction) : Bool :=
  t.foreignKeys.any (fun fk =>
    decide (fk.column = c) && decide (fk.parentTable = p) && decide (fk.onDelete = a))

/-- Apply a table-level checker to the table of this name, failing when absent. -/
def onTable (db : SchemaDB) (n : String) (f : TableSchema → Bool) : Bool :=
  match db.find? (fun t => t.name = n) with
  | some t => f t
  | none => false

/-- Modelled from the spec, §3 (data model) and §6 (persisted state layout):
exactly the nine named tables, and for each the fields, uniqueness
constraints, non-negativity checks, defaults, required/optional references,
and ON DELETE actions (CASCADE / SET NULL / RESTRICT) the spec enumerates. -/
def specDataModelOK (db : SchemaDB) : Bool :=
  decide (db.map TableSchema.name =
    ["UserAccount", "ProductionLine", "ProductionBatch", "InventoryItem",
     "InventoryTransaction", "DefectType", "DefectLog", "ReturnReason", "ReturnLog"]) &&
  onTable db "UserAccount" (fun t =>
    specHasCol t "FullName" && specHasCol t "Role" && specUnique t "Username" &&
    specHasCol t "PasswordHash" && specHasCol t "AccessLevel") &&
  onTable db "ProductionLine" (fun t =>
    specUnique t "LineName" && specHasCol t "Status") &&
  onTable db "ProductionBatch" (fun t =>
    specRequired t "ProductionLineID" && specHasCol t "ShiftDate" &&
    specHasCol t "ShiftType" && specGeZero t "QuantityProduced" &&
    specOptionalCol t "CreatedByUserID" && specDefaultNow t "CreatedAt" &&
    specFK t "ProductionLineID" "ProductionLine" .cascade &&
    specFK t "CreatedByUserID" "UserAccount" .setNull) &&
  onTable db "InventoryItem" (fun t =>
    specHasCol t "ItemType" && specUnique t "ItemName" &&
    specGeZero t "QuantityInStock" && specDefaultZero t "QuantityInStock" &&
    specGeZero t "ReorderThreshold" && specDefaultZero t "ReorderThreshold" &&
    specHasCol t "LastUpdated") &&
  onTable db "InventoryTransaction" (fun t =>
    specRequired t "InventoryItemID" && specOptionalCol t "BatchID" &&
    specRequired t "QuantityChange" && specHasCol t "Reason" &&
    specHasCol t "TransactionDate" && specOptionalCol t "UpdatedByUserID" &&
    specFK t "InventoryItemID" "InventoryItem" .cascade &&
    specFK t "BatchID" "ProductionBatch" .setNull &&
    specFK t "UpdatedByUserID" "UserAccount" .setNull) &&
  onTable db "DefectType" (fun t => specUnique t "DefectName") &&
  onTable db "DefectLog" (fun t =>
    specRequired t "BatchID" && specRequired t "DefectTypeID" &&
    specHasCol t "SeverityLevel" && specHasCol t "DefectDescription" &&
    specOptionalCol t "LoggedByUserID" && specHasCol t "DateLogged" &&
    specFK t "BatchID" "ProductionBatch" .cascade &&
    specFK t "DefectTypeID" "DefectType" .restrict &&
    specFK t "LoggedByUserID" "UserAccount" .setNull) &&
  onTable db "ReturnReason" (fun t => specUnique t "ReasonDescription") &&
  onTable db "ReturnLog" (fun t =>
    specOptionalCol t "CustomerID" && specOptionalCol t "BatchID" &&
    specOptionalCol t "ReturnReasonID" && specHasCol t "DateReturned" &&
    specHasCol t "Notes" && specOptionalCol t "ProcessedByUserID" &&
    specFK t "BatchID" "ProductionBatch" .setNull &&
    specFK t "ReturnReasonID" "ReturnReason" .setNull &&
    specFK t "ProcessedByUserID" "UserAccount" .setNull)

/-- The foreign keys of each statement only reference tables already created
(`seen` is the set of names created so far). -/
def fkOrderOK : List String → List TableSchema → Bool
  | _, [] => true
  | seen, t :: ts =>
    t.foreignKeys.all (fun fk => seen.contains fk.parentTable) && fkOrderOK (t.name :: seen) ts

/-- The schema produced by the initializer, against which SQLite enforces
the declared constraints at runtime. -/
def initSchemas : List TableSchema := create_tables_pure emptyDB

/-- The value of column `c` in row `r` (NULL when the column is absent). -/
def getVal (r : Row) (c : String) : Value :=
  match r.find? (fun p => p.1 = c) with
  | some p => p.2
  | none => .nullV

/-- Overwrite column `c` of row `r` with `v` (entries of other names unchanged). -/
def setCol (r : Row) (c : String) (v : Value) : Row :=
  r.map (fun p => if p.1 = c then (c, v) else p)

/-- The row part of the store: for each table name, its list of rows. -/
abbrev DBState := List (String × List Row)

/-- The rows of table `t` (empty when the table is absent). -/
def getRows (db : DBState) (t : String) : List Row :=
  match db.find? (fun e => e.1 = t) with
  | some e => e.2
  | none => []

/-- Replace the rows of table `t`. -/
def setRows (db : DBState) (t : String) (rs : List Row) : DBState :=
  db.map (fun e => if e.1 = t then (t, rs) else e)

/-- A store over the nine initialized tables, with the given rows. -/
def mkDB (ua pl pb ii tr dt dl rr rl : List Row) : DBState :=
  [ ("UserAccount", ua), ("ProductionLine", pl), ("ProductionBatch", pb)
  , ("InventoryItem", ii), ("InventoryTransaction", tr), ("DefectType", dt)
  , ("DefectLog", dl), ("ReturnReason", rr), ("ReturnLog", rl) ]

/-- The store right after initialization: nine tables, no rows. -/
def initState : DBState := mkDB [] [] [] [] [] [] [] [] []

/-- The value the INSERT provides for column `c`, if any. -/
def lookupVal (vals : List (String × Value)) (c : String) : Option Value :=
  match vals.find? (fun p => p.1 = c) with
  | some p => some p.2
  | none => none

/-- The value a DEFAULT clause supplies. -/
def defaultValue : DefaultClause → Value
  | .defaultInt i => .intV i
  | .currentTimestamp => .textV "CURRENT_TIMESTAMP"

/-- Largest integer currently stored in column `c` (0 when none): used for
SQLite's automatic rowid assignment on INTEGER PRIMARY KEY columns. -/
def maxId (rs : List Row) (c : String) : Int :=
  rs.foldl (fun m r => match getVal r c with | .intV i => max m i | _ => m) 0

/-- The full row an INSERT stores: provided values, else auto-assigned
primary key, else the DEFAULT clause, else NULL. -/
def buildRow (s : TableSchema) (existing : List Row) (vals : List (String × Value)) : Row :=
  s.columns.map (fun col =>
    match lookupVal vals col.name with
    | some v => (col.name, v)
    | none =>
      if col.primaryKey then (col.name, .intV (maxId existing col.name + 1))
      else
        match col.dflt with
        | some d => (col.name, defaultValue d)
        | none => (col.name, .nullV))

/-- The value is not a negative integer. A `CHECK (c >= 0)` rejects exactly
the negative integers: NULL is not FALSE under SQL three-valued logic, and
text compares greater than every number in SQLite, so both pass. -/
def nonNegVal : Value → Bool
  | .intV i => decide (0 ≤ i)
  | _ => true

/-- SQL CHECK evaluation: `CHECK (c >= 0)` rejects only a negative integer. -/
def evalCheck (r : Row) : CheckClause → Bool
  | .geZero c => nonNegVal (getVal r c)

/-- NOT NULL and CHECK constraints of one column, on one row. -/
def columnOK (r : Row) (col : Column) : Bool :=
  (!col.notNull || decide (getVal r col.name ≠ .nullV)) &&
  (match col.chk with
   | some ck => evalCheck r ck
   | none => true)

/-- All column constraints of the table, on one row. -/
def rowConstraintsOK (s : TableSchema) (r : Row) : Bool :=
  s.columns.all (columnOK r)

/-- `r` does not collide with any existing row on column `c`
(NULLs are distinct for UNIQUE, as in SQLite). -/
def uniqueAgainst (rs : List Row) (c : String) (r : Row) : Bool :=
  decide (getVal r c = .nullV) ||
  rs.all (fun r2 => decide (getVal r2 c ≠ getVal r c))

/-- UNIQUE / PRIMARY KEY constraints of the table against the existing rows. -/
def uniqueOK (s : TableSchema) (existing : List Row) (r : Row) : Bool :=
  s.columns.all (fun col => !(col.unique || col.primaryKey) || uniqueAgainst existing col.name r)

/-- A foreign-key value is NULL or matches some parent row. -/
def fkSatisfied (db : DBState) (r : Row) (fk : ForeignKey) : Bool :=
  decide (getVal r fk.column = .nullV) ||
  (getRows db fk.parentTable).any (fun p => decide (getVal p fk.parentColumn = getVal r fk.column))

/-- INSERT under the initialized schema: build the row, enforce NOT NULL,
CHECK, UNIQUE and FOREIGN KEY, then append it. -/
def insertRow (schemas : List TableSchema) (db : DBState) (tbl : String)
    (vals : List (String × Value)) : Except String DBState :=
  match schemas.find? (fun s => s.name = tbl) with
  | none => .error "no such table"
  | some s =>
    let r := buildRow s (getRows db tbl) vals
    if !rowConstraintsOK s r then .error "NOT NULL or CHECK constraint failed"
    else if !uniqueOK s (getRows db tbl) r then .error "UNIQUE constraint failed"
    else if !s.foreignKeys.all (fkSatisfied db r) then .error "FOREIGN KEY constraint failed"
    else .ok (setRows db tbl (getRows db tbl ++ [r]))

/-- Apply SET assignments to a row, left to right. -/
def applyAssigns (assigns : List (String × Value)) (r : Row) : Row :=
  assigns.foldl (fun acc p => setCol acc p.1 p.2) r

/-- No two rows share a non-NULL value in column `c`. -/
def noDupCol : List Row → String → Bool
  | [], _ => true
  | r :: rest, c =>
    (decide (getVal r c = .nullV) || rest.all (fun r2 => decide (getVal r2 c ≠ getVal r c))) &&
    noDupCol rest c

/-- UPDATE under the initialized schema: rewrite the matching rows, enforce
NOT NULL/CHECK on each changed row, UNIQUE on the new table, and FOREIGN KEY
on each changed row. -/
def updateRows (schemas : List TableSchema) (db : DBState) (tbl : String)
    (pred : Row → Bool) (assigns : List (String × Value)) : Except String DBState :=
  match schemas.find? (fun s => s.name = tbl) with
  | none => .error "no such table"
  | some s =>
    let newRows := (getRows db tbl).map (fun r => if pred r then applyAssigns assigns r else r)
    let db2 := setRows db tbl newRows
    if !(getRows db tbl).all (fun r => !pred r || rowConstraintsOK s (applyAssigns assigns r))
      then .error "NOT NULL or CHECK constraint failed"
    else if !s.columns.all (fun col => !(col.unique || col.primaryKey) || noDupCol newRows col.name)
      then .error "UNIQUE constraint failed"
    else if !(getRows db tbl).all (fun r =>
        !pred r || s.foreignKeys.all (fkSatisfied db2 (applyAssigns assigns r)))
      then .error "FOREIGN KEY constraint failed"
    else .ok db2

/-- Does row `r` (via foreign key `fk`) reference one of the just-deleted
parent rows, with a non-NULL key? -/
def refsDeleted (fk : ForeignKey) (deleted : List Row) (r : Row) : Bool :=
  decide (getVal r fk.column ≠ .nullV) &&
  deleted.any (fun d => decide (getVal d fk.parentColumn = getVal r fk.column))

/-- Some child table holds, under an ON DELETE RESTRICT foreign key into
`tbl`, a row referencing a deleted row: the DELETE must be rejected. -/
def restrictViolated (schemas : List TableSchema) (db : DBState) (tbl : String)
    (deleted : List Row) : Bool :=
  schemas.any (fun s => s.foreignKeys.any (fun fk =>
    decide (fk.parentTable = tbl) && decide (fk.onDelete = .restrict) &&
    (getRows db s.name).any (refsDeleted fk deleted)))

/-- The child tables of `tbl`: every (table, foreign key) pair whose foreign
key references `tbl`. -/
def childFKs (schemas : List TableSchema) (tbl : String) : List (String × ForeignKey) :=
  schemas.foldr (fun s acc =>
    (s.foreignKeys.filter (fun fk => fk.parentTable = tbl)).map (fun fk => (s.name, fk)) ++ acc) []

/-- Work items of the DELETE semantics: delete the matching rows of a table,
or apply the ON DELETE actions of the listed child foreign keys. -/
inductive DelTask where
  | del : String → (Row → Bool) → DelTask
  | children : List Row → List (String × ForeignKey) → DelTask

/-- DELETE semantics, gas-bounded: check RESTRICT children, remove the
matching rows, then apply each child foreign key's ON DELETE action
(CASCADE deletes recursively, SET NULL nullifies the referencing column). -/
def delGo (schemas : List TableSchema) : Nat → DelTask → DBState → Except String DBState
  | 0, _, _ => .error "recursion limit"
  | _ + 1, .children _ [], db => .ok db
  | gas + 1, .del tbl pred, db =>
    let deleted := (getRows db tbl).filter pred
    if restrictViolated schemas db tbl deleted then
      .error "FOREIGN KEY constraint failed"
    else
      delGo schemas gas (.children deleted (childFKs schemas tbl))
        (setRows db tbl ((getRows db tbl).filter (fun r => !pred r)))
  | gas + 1, .children deleted ((child, fk) :: rest), db =>
    match fk.onDelete with
    | .cascade =>
      match delGo schemas gas (.del child (refsDeleted fk deleted)) db with
      | .ok db2 => delGo schemas gas (.children deleted rest) db2
      | .error e => .error e
    | .setNull =>
      delGo schemas gas (.children deleted rest)
        (setRows db child ((getRows db child).map
          (fun r => if refsDeleted fk deleted r then setCol r fk.column .nullV else r)))
    | .restrict => delGo schemas gas (.children deleted rest) db

/-- DELETE FROM `tbl` WHERE `pred`, with gas ample for the nine-table schema. -/
def deleteFrom (schemas : List TableSchema) (db : DBState) (tbl : String)
    (pred : Row → Bool) : Except String DBState :=
  delGo schemas 100 (.del tbl pred) db

/-- A data-manipulation statement against the initialized store. -/
inductive Op where
  | ins : String → List (String × Value) → Op
  | upd : String → (Row → Bool) → List (String × Value) → Op
  | del : String → (Row → Bool) → Op

/-- Execute one statement. -/
def applyOp (schemas : List TableSchema) (db : DBState) : Op → Except String DBState
  | .ins tbl vals => insertRow schemas db tbl vals
  | .upd tbl pred assigns => updateRows schemas db tbl pred assigns
  | .del tbl pred => deleteFrom schemas db tbl pred

/-- Execute a sequence of statements; a rejected statement leaves the store
unchanged (the reachable states are those of successful statement prefixes). -/
def runOps (schemas : List TableSchema) : DBState → List Op → DBState
  | db, [] => db
  | db, op :: ops =>
    match applyOp schemas db op with
    | .ok db2 => runOps schemas db2 ops
    | .error _ => runOps schemas db ops

/-- The DefectLog→DefectType foreign key, the only ON DELETE RESTRICT one. -/
def defectTypeRestrictFK : ForeignKey :=
  { column := "DefectTypeID", parentTable := "DefectType",
    parentColumn := "DefectTypeID", onDelete := .restrict }

/-- A per-table row predicate holding of every row of every table. -/
def stateSat (P : String → Row → Prop) (db : DBState) : Prop :=
  ∀ e ∈ db, ∀ r ∈ e.2, P e.1 r

/-- The invariant of the claim: in `InventoryItem`, `QuantityInStock` and
`ReorderThreshold` are never negative integers; in `ProductionBatch`,
`QuantityProduced` never is. -/
def nonNegP (t : String) (r : Row) : Prop :=
  (t = "InventoryItem" →
    nonNegVal (getVal r "QuantityInStock") = true ∧
    nonNegVal (getVal r "ReorderThreshold") = true) ∧
  (t = "ProductionBatch" → nonNegVal (getVal r "QuantityProduced") = true)

/-- The invariant, read off the two tables of the store. -/
def nonNegState (db : DBState) : Prop :=
  (∀ r ∈ getRows db "InventoryItem",
    nonNegVal (getVal r "QuantityInStock") = true ∧
    nonNegVal (getVal r "ReorderThreshold") = true) ∧
  (∀ r ∈ getRows db "ProductionBatch", nonNegVal (getVal r "QuantityProduced") = true)

lemma hasT_cti_self (db : SchemaDB) (t : TableSchema) :
    hasT (createTableIfNotExists db t) t.name = true := by
  unfold createTableIfNotExists
  by_cases h : hasT db t.name = true
  · simp [h]
  · simp only [h, Bool.false_eq_true, if_false]
    simp [hasT, List.any_append]

lemma hasT_cti_mono (db : SchemaDB) (t : TableSchema) (n : String)
    (h : hasT db n = true) : hasT (createTableIfNotExists db t) n = true := by
  unfold createTableIfNotExists
  by_cases h2 : hasT db t.name = true
  · simpa [h2]
  · simp only [h2, Bool.false_eq_true, if_false]
    simp only [hasT, List.any_append]
    simp [hasT] at h
    simp [h]

lemma cti_of_hasT (db : SchemaDB) (t : TableSchema)
    (h : hasT db t.name = true) : createTableIfNotExists db t = db := by
  simp [createTableIfNotExists, h]

lemma hasT_foldl_mono (ts : List TableSchema) (db : SchemaDB) (n : String)
    (h : hasT db n = true) :
    hasT (ts.foldl createTableIfNotExists db) n = true := by
  induction ts generalizing db with
  | nil => simpa
  | cons t ts ih => exact ih _ (hasT_cti_mono db t n h)

lemma hasT_foldl_mem (ts : List TableSchema) (db : SchemaDB) (t : TableSchema)
    (h : t ∈ ts) : hasT (ts.foldl createTableIfNotExists db) t.name = true := by
  induction ts generalizing db with
  | nil => cases h
  | cons s ts ih =>
    rcases List.mem_cons.mp h with rfl | h2
    · exact hasT_foldl_mono ts _ _ (hasT_cti_self db t)
    · exact ih _ h2

lemma foldl_cti_fix (ts : List TableSchema) (db : SchemaDB)
    (h : ∀ t ∈ ts, hasT db t.name = true) :
    ts.foldl createTableIfNotExists db = db := by
  induction ts with
  | nil => rfl
  | cons t ts ih =>
    have h1 : createTableIfNotExists db t = db :=
      cti_of_hasT db t (h t (List.mem_cons_self t ts))
    simp only [List.foldl_cons, h1]
    exact ih (fun s hs => h s (List.mem_cons_of_mem t hs))

lemma create_tables_pure_idem (db : SchemaDB) :
    create_tables_pure (create_tables_pure db) = create_tables_pure db := by
  unfold create_tables_pure
  exact foldl_cti_fix tableStmts _ (fun t ht => hasT_foldl_mem tableStmts db t ht)

lemma foldl_cti_extend (ts : List TableSchema) (db : SchemaDB) :
    ∃ ext, ts.foldl createTableIfNotExists db = db ++ ext := by
  induction ts generalizing db with
  | nil => exact ⟨[], by simp⟩
  | cons t ts ih =>
    simp only [List.foldl_cons]
    by_cases h : hasT db t.name = true
    · rw [cti_of_hasT db t h]
      exact ih db
    · have hc : createTableIfNotExists db t = db ++ [t] := by
        simp [createTableIfNotExists, h]
      rw [hc]
      obtain ⟨e, he⟩ := ih (db ++ [t])
      exact ⟨[t] ++ e, by simp [he]⟩

lemma runStmts_allOk (ts : List TableSchema) (i : Nat) (db : SchemaDB) :
    runStmts allOk i ts db =
      (ts.foldl createTableIfNotExists db,
       ts.map (fun t => "Creating table " ++ t.name ++ "...")
         ++ ["All tables created successfully (if they did not already exist)."]) := by
  induction ts generalizing i db with
  | nil => rfl
  | cons t ts ih =>
    simp only [runStmts, allOk, if_true, List.foldl_cons, List.map_cons, List.cons_append]
    rw [ih]

lemma runStmts_fail (ts : List TableSchema) (j : Nat) (ok : Nat → Bool) (i : Nat)
    (db : SchemaDB) (h1 : ∀ k, k < j → ok (i + k) = true) (h2 : ok (i + j) = false)
    (h3 : j < ts.length) :
    runStmts ok i ts db =
      ((ts.take j).foldl createTableIfNotExists db,
       (ts.take (j + 1)).map (fun t => "Creating table " ++ t.name ++ "...")
         ++ ["Error creating tables: ..."]) := by
  induction ts generalizing j i db with
  | nil => simp at h3
  | cons t ts ih =>
    cases j with
    | zero =>
      have hi : ok i = false := by simpa using h2
      simp [runStmts, hi]
    | succ j =>
      have hi : ok i = true := by simpa using h1 0 (Nat.succ_pos j)
      have step : ∀ k, k < j → ok (i + 1 + k) = true := by
        intro k hk
        have := h1 (k + 1) (Nat.succ_lt_succ hk)
        simpa [Nat.add_assoc, Nat.add_comm 1 k] using this
      have hfail : ok (i + 1 + j) = false := by
        simpa [Nat.add_assoc, Nat.add_comm 1 j] using h2
      have hlen : j < ts.length := Nat.lt_of_succ_lt_succ h3
      simp only [runStmts, hi, if_true]
      rw [ih j (i + 1) (createTableIfNotExists db t) step hfail hlen]
      simp

lemma initSchemas_eq : initSchemas = tableStmts := rfl

lemma refsDeleted_filter (fk : ForeignKey) (parentRows : List Row) (v : Int)
    (hne : parentRows.filter
      (fun d => decide (getVal d fk.parentColumn = Value.intV v)) ≠ []) (r : Row) :
    refsDeleted fk
      (parentRows.filter (fun d => decide (getVal d fk.parentColumn = Value.intV v))) r
      = decide (getVal r fk.column = Value.intV v) := by
  by_cases h : getVal r fk.column = Value.intV v
  · rw [decide_eq_true h]
    obtain ⟨d, hd⟩ := List.exists_mem_of_ne_nil _ hne
    have hv : getVal d fk.parentColumn = Value.intV v := by
      simpa using (List.mem_filter.mp hd).2
    simp only [refsDeleted, Bool.and_eq_true, decide_eq_true_eq, List.any_eq_true]
    exact ⟨by simp [h], d, hd, hv.trans h.symm⟩
  · have hany : (parentRows.filter
        (fun d => decide (getVal d fk.parentColumn = Value.intV v))).any
        (fun d => decide (getVal d fk.parentColumn = getVal r fk.column)) = false := by
      rw [List.any_eq_false]
      intro d hd
      have hv : getVal d fk.parentColumn = Value.intV v := by
        simpa using (List.mem_filter.mp hd).2
      simp only [hv, decide_eq_true_eq]
      exact fun he => h he.symm
    simp [refsDeleted, hany, h]

lemma restrictViolated_defectType (ua pl pb ii tr dt dl rr rl deleted : List Row) :
    restrictViolated initSchemas (mkDB ua pl pb ii tr dt dl rr rl) "DefectType" deleted
      = dl.any (refsDeleted defectTypeRestrictFK deleted) := by
  simp [restrictViolated, initSchemas_eq, tableStmts, userAccountTable, productionLineTable,
    productionBatchTable, inventoryItemTable, inventoryTransactionTable, defectTypeTable,
    defectLogTable, returnReasonTable, returnLogTable, mkDB, getRows, defectTypeRestrictFK]

lemma delGo_del_step (schemas : List TableSchema) (gas : Nat) (tbl : String)
    (pred : Row → Bool) (db : DBState) :
    delGo schemas (gas + 1) (.del tbl pred) db =
      (if restrictViolated schemas db tbl ((getRows db tbl).filter pred)
        then .error "FOREIGN KEY constraint failed"
        else delGo schemas gas
          (.children ((getRows db tbl).filter pred) (childFKs schemas tbl))
          (setRows db tbl ((getRows db tbl).filter (fun r => !pred r)))) := rfl

lemma getVal_cons (a : String) (b : Value) (l : Row) (c : String) :
    getVal ((a, b) :: l) c = if a = c then b else getVal l c := by
  unfold getVal
  by_cases h : a = c
  · rw [List.find?_cons_of_pos _ (by simp [h]), if_pos h]
  · rw [List.find?_cons_of_neg _ (by simp [h]), if_neg h]

lemma getVal_setCol_null (r : Row) (c c2 : String) :
    getVal (setCol r c Value.nullV) c2 = getVal r c2 ∨
    getVal (setCol r c Value.nullV) c2 = Value.nullV := by
  induction r with
  | nil => left; rfl
  | cons p rest ih =>
    obtain ⟨a, b⟩ := p
    rw [show setCol ((a, b) :: rest) c Value.nullV
        = (if a = c then (c, Value.nullV) else (a, b)) :: setCol rest c Value.nullV from rfl]
    by_cases h1 : a = c
    · subst h1
      rw [if_pos rfl, getVal_cons, getVal_cons]
      by_cases h2 : a = c2
      · rw [if_pos h2]
        right
        rfl
      · rw [if_neg h2, if_neg h2]
        exact ih
    · rw [if_neg h1, getVal_cons, getVal_cons]
      by_cases h2 : a = c2
      · rw [if_pos h2, if_pos h2]
        left
        rfl
      · rw [if_neg h2, if_neg h2]
        exact ih

lemma nonNegVal_setCol_null {r : Row} {c c2 : String}
    (h : nonNegVal (getVal r c2) = true) :
    nonNegVal (getVal (setCol r c Value.nullV) c2) = true := by
  rcases getVal_setCol_null r c c2 with he | he <;> rw [he]
  · exact h
  · rfl

lemma nonNegP_setCol_null (t : String) (r : Row) (c : String)
    (h : nonNegP t r) : nonNegP t (setCol r c Value.nullV) := by
  obtain ⟨h1, h2⟩ := h
  refine ⟨fun ht => ?_, fun ht => nonNegVal_setCol_null (h2 ht)⟩
  obtain ⟨ha, hb⟩ := h1 ht
  exact ⟨nonNegVal_setCol_null ha, nonNegVal_setCol_null hb⟩

lemma mem_getRows {db : DBState} {t : String} {r : Row} (h : r ∈ getRows db t) :
    ∃ e ∈ db, e.1 = t ∧ r ∈ e.2 := by
  unfold getRows at h
  rcases hf : db.find? (fun e => e.1 = t) with _ | e
  · rw [hf] at h
    cases h
  · rw [hf] at h
    refine ⟨e, List.mem_of_find?_eq_some hf, ?_, h⟩
    simpa using List.find?_some hf

lemma stateSat_getRows {P : String → Row → Prop} {db : DBState}
    (hs : stateSat P db) (t : String) :
    ∀ r ∈ getRows db t, P t r := by
  intro r hr
  obtain ⟨e, he, het, hre⟩ := mem_getRows hr
  have := hs e he r hre
  rwa [het] at this

lemma stateSat_setRows {P : String → Row → Prop} {db : DBState} {t : String}
    {rs : List Row} (hs : stateSat P db) (hr : ∀ r ∈ rs, P t r) :
    stateSat P (setRows db t rs) := by
  intro e he r hre
  unfold setRows at he
  obtain ⟨e0, he0, heq⟩ := List.mem_map.mp he
  by_cases h0 : e0.1 = t
  · rw [if_pos h0] at heq
    rw [← heq] at hre ⊢
    exact hr r hre
  · rw [if_neg h0] at heq
    rw [← heq] at hre ⊢
    exact hs e0 he0 r hre

lemma insertRow_pres {schemas : List TableSchema} {P : String → Row → Prop}
    (hcheck : ∀ t s, schemas.find? (fun s2 => s2.name = t) = some s →
      ∀ r, rowConstraintsOK s r = true → P t r)
    {db : DBState} {tbl : String} {vals : List (String × Value)} {db2 : DBState}
    (hs : stateSat P db) (h : insertRow schemas db tbl vals = .ok db2) :
    stateSat P db2 := by
  unfold insertRow at h
  rcases hf : schemas.find? (fun s => s.name = tbl) with _ | s
  · rw [hf] at h
    exact Except.noConfusion h
  · rw [hf] at h
    dsimp only at h
    by_cases hc : rowConstraintsOK s (buildRow s (getRows db tbl) vals) = true
    · rw [hc] at h
      simp only [Bool.not_true, Bool.false_eq_true, if_false] at h
      by_cases hu : uniqueOK s (getRows db tbl) (buildRow s (getRows db tbl) vals) = true
      · rw [hu] at h
        simp only [Bool.not_true, Bool.false_eq_true, if_false] at h
        by_cases hfk : s.foreignKeys.all (fkSatisfied db (buildRow s (getRows db tbl) vals)) = true
        · rw [hfk] at h
          simp only [Bool.not_true, Bool.false_eq_true, if_false] at h
          injection h with h
          rw [← h]
          apply stateSat_setRows hs
          intro r0 hr0
          rcases List.mem_append.mp hr0 with h0 | h0
          · exact stateSat_getRows hs tbl r0 h0
          · rw [List.mem_singleton.mp h0]
            exact hcheck tbl s hf _ hc
        · rw [Bool.not_eq_true] at hfk
          rw [hfk] at h
          simp at h
      · rw [Bool.not_eq_true] at hu
        rw [hu] at h
        simp at h
    · rw [Bool.not_eq_true] at hc
      rw [hc] at h
      simp at h

lemma updateRows_pres {schemas : List TableSchema} {P : String → Row → Prop}
    (hcheck : ∀ t s, schemas.find? (fun s2 => s2.name = t) = some s →
      ∀ r, rowConstraintsOK s r = true → P t r)
    {db : DBState} {tbl : String} {pred : Row → Bool}
    {assigns : List (String × Value)} {db2 : DBState}
    (hs : stateSat P db) (h : updateRows schemas db tbl pred assigns = .ok db2) :
    stateSat P db2 := by
  unfold updateRows at h
  rcases hf : schemas.find? (fun s => s.name = tbl) with _ | s
  · rw [hf] at h
    exact Except.noConfusion h
  · rw [hf] at h
    dsimp only at h
    by_cases hc : (getRows db tbl).all
        (fun r => !pred r || rowConstraintsOK s (applyAssigns assigns r)) = true
    · rw [hc] at h
      simp only [Bool.not_true, Bool.false_eq_true, if_false] at h
      by_cases hu : s.columns.all (fun col => !(col.unique || col.primaryKey)
          || noDupCol ((getRows db tbl).map
            (fun r => if pred r then applyAssigns assigns r else r)) col.name) = true
      · rw [hu] at h
        simp only [Bool.not_true, Bool.false_eq_true, if_false] at h
        by_cases hfk : (getRows db tbl).all (fun r => !pred r ||
            s.foreignKeys.all (fkSatisfied (setRows db tbl ((getRows db tbl).map
              (fun r => if pred r then applyAssigns assigns r else r)))
              (applyAssigns assigns r))) = true
        · rw [hfk] at h
          simp only [Bool.not_true, Bool.false_eq_true, if_false] at h
          injection h with h
          rw [← h]
          apply stateSat_setRows hs
          intro r0 hr0
          obtain ⟨r1, hr1, heq⟩ := List.mem_map.mp hr0
          by_cases hp : pred r1 = true
          · rw [if_pos hp] at heq
            rw [List.all_eq_true] at hc
            have := hc r1 hr1
            rw [hp] at this
            simp only [Bool.not_true, Bool.false_or] at this
            rw [← heq]
            exact hcheck tbl s hf _ this
          · rw [Bool.not_eq_true] at hp
            rw [hp] at heq
            simp only [Bool.false_eq_true, if_false] at heq
            rw [← heq]
            exact stateSat_getRows hs tbl r1 hr1
        · rw [Bool.not_eq_true] at hfk
          rw [hfk] at h
          simp at h
      · rw [Bool.not_eq_true] at hu
        rw [hu] at h
        simp at h
    · rw [Bool.not_eq_true] at hc
      rw [hc] at h
      simp at h

lemma delGo_children_step (schemas : List TableSchema) (gas : Nat) (del : List Row)
    (child : String) (fk : ForeignKey) (rest : List (String × ForeignKey)) (db : DBState) :
    delGo schemas (gas + 1) (.children del ((child, fk) :: rest)) db =
      (match fk.onDelete with
       | .cascade =>
         match delGo schemas gas (.del child (refsDeleted fk del)) db with
         | .ok db2 => delGo schemas gas (.children del rest) db2
         | .error e => .error e
       | .setNull =>
         delGo schemas gas (.children del rest)
           (setRows db child ((getRows db child).map
             (fun r => if refsDeleted fk del r then setCol r fk.column Value.nullV else r)))
       | .restrict => delGo schemas gas (.children del rest) db) := rfl

lemma delGo_pres {schemas : List TableSchema} {P : String → Row → Prop}
    (hnull : ∀ t r c, P t r → P t (setCol r c Value.nullV)) :
    ∀ gas task db db2, stateSat P db → delGo schemas gas task db = .ok db2 →
      stateSat P db2 := by
  intro gas
  induction gas with
  | zero =>
    intro task db db2 _ h
    exact Except.noConfusion h
  | succ gas ih =>
    intro task db db2 hs h
    match task with
    | .children del [] =>
      rw [show delGo schemas (gas + 1) (.children del []) db = .ok db from rfl] at h
      injection h with h
      rw [← h]
      exact hs
    | .del tbl pred =>
      rw [delGo_del_step] at h
      by_cases hrv : restrictViolated schemas db tbl ((getRows db tbl).filter pred) = true
      · rw [if_pos hrv] at h
        exact Except.noConfusion h
      · rw [if_neg hrv] at h
        refine ih _ _ _ ?_ h
        apply stateSat_setRows hs
        intro r hr
        exact stateSat_getRows hs tbl r (List.mem_of_mem_filter hr)
    | .children del ((child, fk) :: rest) =>
      rw [delGo_children_step] at h
      rcases hact : fk.onDelete with _ | _ | _ <;> rw [hact] at h
      · rcases hrec : delGo schemas gas (.del child (refsDeleted fk del)) db with e | db3 <;>
          rw [hrec] at h
        · exact Except.noConfusion h
        · exact ih _ _ _ (ih _ _ _ hs hrec) h
      · refine ih _ _ _ ?_ h
        apply stateSat_setRows hs
        intro r hr
        obtain ⟨r1, hr1, heq⟩ := List.mem_map.mp hr
        by_cases hp : refsDeleted fk del r1 = true
        · rw [if_pos hp] at heq
          rw [← heq]
          exact hnull child r1 fk.column (stateSat_getRows hs child r1 hr1)
        · rw [if_neg hp] at heq
          rw [← heq]
          exact stateSat_getRows hs child r1 hr1
      · exact ih _ _ _ hs h

lemma applyOp_pres {schemas : List TableSchema} {P : String → Row → Prop}
    (hnull : ∀ t r c, P t r → P t (setCol r c Value.nullV))
    (hcheck : ∀ t s, schemas.find? (fun s2 => s2.name = t) = some s →
      ∀ r, rowConstraintsOK s r = true → P t r)
    {db db2 : DBState} {op : Op} (hs : stateSat P db)
    (h : applyOp schemas db op = .ok db2) : stateSat P db2 := by
  cases op with
  | ins tbl vals => exact insertRow_pres hcheck hs h
  | upd tbl pred assigns => exact updateRows_pres hcheck hs h
  | del tbl pred => exact delGo_pres hnull 100 (.del tbl pred) db db2 hs h

lemma runOps_pres {schemas : List TableSchema} {P : String → Row → Prop}
    (hnull : ∀ t r c, P t r → P t (setCol r c Value.nullV))
    (hcheck : ∀ t s, schemas.find? (fun s2 => s2.name = t) = some s →
      ∀ r, rowConstraintsOK s r = true → P t r) :
    ∀ (ops : List Op) (db : DBState), stateSat P db →
      stateSat P (runOps schemas db ops) := by
  intro ops
  induction ops with
  | nil => intro db hs; exact hs
  | cons op ops ih =>
    intro db hs
    rw [show runOps schemas db (op :: ops) =
      (match applyOp schemas db op with
       | .ok db2 => runOps schemas db2 ops
       | .error _ => runOps schemas db ops) from rfl]
    rcases happ : applyOp schemas db op with e | db2
    · exact ih db hs
    · exact ih db2 (applyOp_pres hnull hcheck hs happ)

lemma rowConstraintsOK_col {s : TableSchema} {r : Row} {col : Column}
    (hmem : col ∈ s.columns) (h : rowConstraintsOK s r = true) :
    columnOK r col = true := by
  rw [rowConstraintsOK, List.all_eq_true] at h
  exact h col hmem

lemma columnOK_chk {r : Row} {col : Column} {ck : CheckClause}
    (h : columnOK r col = true) (hck : col.chk = some ck) : evalCheck r ck = true := by
  rw [columnOK, Bool.and_eq_true] at h
  rcases h with ⟨_, h2⟩
  rw [hck] at h2
  exact h2

lemma nonNegP_check : ∀ t s, initSchemas.find? (fun s2 => s2.name = t) = some s →
    ∀ r, rowConstraintsOK s r = true → nonNegP t r := by
  intro t s hf r hc
  have hmem : s ∈ initSchemas := List.mem_of_find?_eq_some hf
  have hname : s.name = t := by simpa using List.find?_some hf
  rw [initSchemas_eq, tableStmts] at hmem
  subst hname
  simp only [List.mem_cons, List.not_mem_nil, or_false] at hmem
  rcases hmem with rfl | rfl | rfl | rfl | rfl | rfl | rfl | rfl | rfl
  case inr.inr.inr.inr.inr.inr.inr.inr =>
    exact ⟨fun h => absurd h (by decide), fun h => absurd h (by decide)⟩
  case inr.inr.inr.inl =>
    refine ⟨fun _ => ?_, fun h => absurd h (by decide)⟩
    constructor
    · exact columnOK_chk (rowConstraintsOK_col (by simp [inventoryItemTable]) hc)
        (show (inventoryItemTable.columns.get ⟨3, by simp [inventoryItemTable]⟩).chk
          = some (.geZero "QuantityInStock") from rfl)
    · exact columnOK_chk (rowConstraintsOK_col (by simp [inventoryItemTable]) hc)
        (show (inventoryItemTable.columns.get ⟨4, by simp [inventoryItemTable]⟩).chk
          = some (.geZero "ReorderThreshold") from rfl)
  case inr.inr.inl =>
    refine ⟨fun h => absurd h (by decide), fun _ => ?_⟩
    exact columnOK_chk (rowConstraintsOK_col (by simp [productionBatchTable]) hc)
      (show (productionBatchTable.columns.get ⟨4, by simp [productionBatchTable]⟩).chk
        = some (.geZero "QuantityProduced") from rfl)
  all_goals exact ⟨fun h => absurd h (by decide), fun h => absurd h (by decide)⟩

lemma stateSat_initState : stateSat nonNegP initState := by
  intro e he r hr
  simp only [initState, mkDB, List.mem_cons, List.not_mem_nil, or_false] at he
  rcases he with rfl | rfl | rfl | rfl | rfl | rfl | rfl | rfl | rfl <;>
    exact absurd hr (by simp)

/-- C1: running the initializer (create_connection then create_tables) twice
against the same store succeeds both times with no error lines, and the second
run returns the store (and output) of the first run unchanged: no duplicate
and no altered tables. -/
theorem c1_initializer_idempotent (db : SchemaDB) :
    main_run true true allOk ((main_run true true allOk db).1) = main_run true true allOk db ∧
    (main_run true true allOk db).2.all (fun s => !isErrorLine s) = true := by
  have hrun : ∀ d : SchemaDB, main_run true true allOk d =
      (create_tables_pure d,
       (["SQLite version: ...", "Successfully connected to database: ..."] ++
        (tableStmts.map (fun t => "Creating table " ++ t.name ++ "...") ++
         ["All tables created successfully (if they did not already exist)."]) ++
        ["Database setup complete. File saved at: ..."])) := by
    intro d
    simp [main_run, create_connection, create_tables, runStmts_allOk, create_tables_pure]
  constructor
  · simp only [hrun, create_tables_pure_idem]
  · rw [hrun db]
    rfl

/-- C1 witness: the idempotence theorem instantiated on a fresh store. -/
theorem c1_initializer_idempotent_witness :
    main_run true true allOk ((main_run true true allOk emptyDB).1) =
      main_run true true allOk emptyDB ∧
    (main_run true true allOk emptyDB).2.all (fun s => !isErrorLine s) = true :=
  c1_initializer_idempotent emptyDB

/-- C2: a run on a fresh store creates exactly the nine declared tables (in
statement order, with their transcribed columns, types, defaults and
constraints), their names are exactly the nine of the data model, and the
result satisfies every fact the spec's data model states about them. -/
theorem c2_fresh_store_schema :
    create_tables_pure emptyDB = tableStmts ∧
    (create_tables_pure emptyDB).map TableSchema.name =
      ["UserAccount", "ProductionLine", "ProductionBatch", "InventoryItem",
       "InventoryTransaction", "DefectType", "DefectLog", "ReturnReason", "ReturnLog"] ∧
    specDataModelOK (create_tables_pure emptyDB) = true := by
  refine ⟨by rfl, by rfl, by rfl⟩

/-- C6: when opening/creating the store fails, `create_connection` prints the
error and returns a null handle, and `main` skips table creation entirely:
the store is returned unchanged, with only the two error messages printed. -/
theorem c6_connection_failure_skips_tables (pragmaOk : Bool) (ok : Nat → Bool)
    (db : SchemaDB) :
    (create_connection false pragmaOk).1 = none ∧
    main_run false pragmaOk ok db =
      (db, ["sqlite3.Error: ...", "Error! Cannot create the database connection."]) := by
  constructor
  · rfl
  · rfl

/-- C7: if the `j`-th DDL statement fails, the error is caught and logged
(`Error creating tables: ...` is printed, the function returns normally), no
rollback happens: the store holds exactly the tables of the statements that
already succeeded, and every previously present table is still there. -/
theorem c7_partial_schema_on_failure (ok : Nat → Bool) (j : Nat) (db : SchemaDB)
    (h1 : ∀ k, k < j → ok k = true) (h2 : ok j = false) (h3 : j < 9) :
    create_tables ok db =
      ((tableStmts.take j).foldl createTableIfNotExists db,
       (tableStmts.take (j + 1)).map (fun t => "Creating table " ++ t.name ++ "...")
         ++ ["Error creating tables: ..."]) ∧
    (∃ ext, (create_tables ok db).1 = db ++ ext) ∧
    "Error creating tables: ..." ∈ (create_tables ok db).2 := by
  have h3' : j < tableStmts.length := by simpa [tableStmts] using h3
  have e1 : ∀ k, k < j → ok (0 + k) = true := fun k hk => by simpa using h1 k hk
  have e2 : ok (0 + j) = false := by simpa using h2
  have hmain : create_tables ok db =
      ((tableStmts.take j).foldl createTableIfNotExists db,
       (tableStmts.take (j + 1)).map (fun t => "Creating table " ++ t.name ++ "...")
         ++ ["Error creating tables: ..."]) := by
    unfold create_tables
    exact runStmts_fail tableStmts j ok 0 db e1 e2 h3'
  refine ⟨hmain, ?_, ?_⟩
  · rw [hmain]
    exact foldl_cti_extend _ db
  · rw [hmain]
    simp

/-- C7 witness: failure at the fourth statement (index 3) on a fresh store
leaves exactly the first three tables. -/
theorem c7_partial_schema_on_failure_witness :
    create_tables (fun n => decide (n < 3)) emptyDB =
      ((tableStmts.take 3).foldl createTableIfNotExists emptyDB,
       (tableStmts.take (3 + 1)).map (fun t => "Creating table " ++ t.name ++ "...")
         ++ ["Error creating tables: ..."]) ∧
    (∃ ext, (create_tables (fun n => decide (n < 3)) emptyDB).1 = emptyDB ++ ext) ∧
    "Error creating tables: ..." ∈ (create_tables (fun n => decide (n < 3)) emptyDB).2 :=
  c7_partial_schema_on_failure (fun n => decide (n < 3)) 3 emptyDB
    (fun k hk => decide_eq_true hk) (by decide) (by decide)

/-- C8: `create_tables` issues the statements in dependency order: every
foreign key of each statement references a table created by an earlier
statement. -/
theorem c8_creation_order_respects_deps : fkOrderOK [] tableStmts = true := by rfl

/-- C9: when the PRAGMA enabling foreign keys fails after a successful open,
`create_connection` still returns the open handle (with enforcement off), so
`main` goes on to create all tables on that connection. -/
theorem c9_pragma_failure_still_connects (ok : Nat → Bool) (db : SchemaDB) :
    (create_connection true false).1 = some { fkEnabled := false } ∧
    (main_run true false ok db).1 = (create_tables ok db).1 := by
  constructor
  · rfl
  · rfl

/-- C3: in the initialized schema, deleting a ProductionLine row cascades:
afterwards the ProductionBatch table holds exactly the batches that did not
reference it; deleting a UserAccount row referenced by `CreatedByUserID`
keeps every batch, only setting that field to NULL in the referencing ones. -/
theorem c3_line_cascade_user_setnull (ua pl pb ii tr dt dl rr rl : List Row) (v u : Int)
    (hline : ∃ r ∈ pl, getVal r "ProductionLineID" = Value.intV v)
    (huser : ∃ r ∈ ua, getVal r "UserID" = Value.intV u) :
    (∃ db2, deleteFrom initSchemas (mkDB ua pl pb ii tr dt dl rr rl) "ProductionLine"
        (fun r => decide (getVal r "ProductionLineID" = Value.intV v)) = .ok db2 ∧
      getRows db2 "ProductionBatch" =
        pb.filter (fun r => !decide (getVal r "ProductionLineID" = Value.intV v))) ∧
    (∃ db3, deleteFrom initSchemas (mkDB ua pl pb ii tr dt dl rr rl) "UserAccount"
        (fun r => decide (getVal r "UserID" = Value.intV u)) = .ok db3 ∧
      getRows db3 "ProductionBatch" =
        pb.map (fun r => if decide (getVal r "CreatedByUserID" = Value.intV u)
          then setCol r "CreatedByUserID" Value.nullV else r)) := by
  constructor
  · have hne : pl.filter (fun d => decide (getVal d "ProductionLineID" = Value.intV v)) ≠ [] := by
      obtain ⟨r, hr, hv⟩ := hline
      exact List.ne_nil_of_mem (List.mem_filter.mpr ⟨hr, by simp [hv]⟩)
    have hstep : ∃ db2,
        deleteFrom initSchemas (mkDB ua pl pb ii tr dt dl rr rl) "ProductionLine"
          (fun r => decide (getVal r "ProductionLineID" = Value.intV v)) = .ok db2 ∧
        getRows db2 "ProductionBatch" =
          pb.filter (fun r => !refsDeleted
            { column := "ProductionLineID", parentTable := "ProductionLine",
              parentColumn := "ProductionLineID", onDelete := .cascade }
            (pl.filter (fun d => decide (getVal d "ProductionLineID" = Value.intV v))) r) :=
      ⟨_, rfl, rfl⟩
    obtain ⟨db2, hdel, hrows⟩ := hstep
    refine ⟨db2, hdel, ?_⟩
    rw [hrows]
    exact List.filter_congr (fun r _ => by
      rw [refsDeleted_filter _ _ _ hne r])
  · have hneU : ua.filter (fun d => decide (getVal d "UserID" = Value.intV u)) ≠ [] := by
      obtain ⟨r, hr, hv⟩ := huser
      exact List.ne_nil_of_mem (List.mem_filter.mpr ⟨hr, by simp [hv]⟩)
    have hstep : ∃ db3,
        deleteFrom initSchemas (mkDB ua pl pb ii tr dt dl rr rl) "UserAccount"
          (fun r => decide (getVal r "UserID" = Value.intV u)) = .ok db3 ∧
        getRows db3 "ProductionBatch" =
          pb.map (fun r => if refsDeleted
            { column := "CreatedByUserID", parentTable := "UserAccount",
              parentColumn := "UserID", onDelete := .setNull }
            (ua.filter (fun d => decide (getVal d "UserID" = Value.intV u))) r
            then setCol r "CreatedByUserID" Value.nullV else r) :=
      ⟨_, rfl, rfl⟩
    obtain ⟨db3, hdel, hrows⟩ := hstep
    refine ⟨db3, hdel, ?_⟩
    rw [hrows]
    exact List.map_congr_left (fun r _ => by
      rw [refsDeleted_filter _ _ _ hneU r])

/-- C4: in the initialized schema, deleting a DefectType row is rejected
(with the store unchanged — the statement returns an error instead of a new
state) exactly when some DefectLog row still references it via DefectTypeID;
when nothing references it, the delete succeeds and only removes that row. -/
theorem c4_defecttype_delete_restricted (ua pl pb ii tr dt dl rr rl : List Row) (v : Int)
    (hdt : ∃ r ∈ dt, getVal r "DefectTypeID" = Value.intV v) :
    (deleteFrom initSchemas (mkDB ua pl pb ii tr dt dl rr rl) "DefectType"
        (fun r => decide (getVal r "DefectTypeID" = Value.intV v))
        = .error "FOREIGN KEY constraint failed"
      ↔ ∃ r ∈ dl, getVal r "DefectTypeID" = Value.intV v) ∧
    ((¬ ∃ r ∈ dl, getVal r "DefectTypeID" = Value.intV v) →
      deleteFrom initSchemas (mkDB ua pl pb ii tr dt dl rr rl) "DefectType"
        (fun r => decide (getVal r "DefectTypeID" = Value.intV v))
        = .ok (mkDB ua pl pb ii tr
            (dt.filter (fun r => !decide (getVal r "DefectTypeID" = Value.intV v)))
            dl rr rl)) := by
  have hne : dt.filter (fun d => decide (getVal d "DefectTypeID" = Value.intV v)) ≠ [] := by
    obtain ⟨r, hr, hv⟩ := hdt
    exact List.ne_nil_of_mem (List.mem_filter.mpr ⟨hr, by simp [hv]⟩)
  have hrd : ∀ r, refsDeleted defectTypeRestrictFK
      (dt.filter (fun d => decide (getVal d "DefectTypeID" = Value.intV v))) r
      = decide (getVal r "DefectTypeID" = Value.intV v) :=
    refsDeleted_filter defectTypeRestrictFK dt v hne
  have hiff : dl.any (refsDeleted defectTypeRestrictFK
      (dt.filter (fun d => decide (getVal d "DefectTypeID" = Value.intV v)))) = true
      ↔ ∃ r ∈ dl, getVal r "DefectTypeID" = Value.intV v := by
    rw [List.any_eq_true]
    constructor
    · rintro ⟨r, hr, hx⟩
      rw [hrd r] at hx
      exact ⟨r, hr, of_decide_eq_true hx⟩
    · rintro ⟨r, hr, hx⟩
      exact ⟨r, hr, by rw [hrd r]; exact decide_eq_true hx⟩
  have hred : deleteFrom initSchemas (mkDB ua pl pb ii tr dt dl rr rl) "DefectType"
      (fun r => decide (getVal r "DefectTypeID" = Value.intV v))
      = (if dl.any (refsDeleted defectTypeRestrictFK
          (dt.filter (fun d => decide (getVal d "DefectTypeID" = Value.intV v)))) = true
        then .error "FOREIGN KEY constraint failed"
        else .ok (mkDB ua pl pb ii tr
          (dt.filter (fun r => !decide (getVal r "DefectTypeID" = Value.intV v)))
          dl rr rl)) := by
    unfold deleteFrom
    rw [show (100 : Nat) = 99 + 1 from rfl, delGo_del_step]
    rw [show getRows (mkDB ua pl pb ii tr dt dl rr rl) "DefectType" = dt from rfl]
    rw [restrictViolated_defectType]
    by_cases hb : dl.any (refsDeleted defectTypeRestrictFK
        (dt.filter (fun d => decide (getVal d "DefectTypeID" = Value.intV v)))) = true
    · rw [if_pos hb, if_pos hb]
    · rw [if_neg hb, if_neg hb]
      rfl
  constructor
  · rw [hred]
    by_cases hb : dl.any (refsDeleted defectTypeRestrictFK
        (dt.filter (fun d => decide (getVal d "DefectTypeID" = Value.intV v)))) = true
    · rw [if_pos hb]
      exact ⟨fun _ => hiff.mp hb, fun _ => rfl⟩
    · rw [if_neg hb]
      constructor
      · intro h
        exact absurd h (by simp)
      · intro hex
        exact absurd (hiff.mpr hex) hb
  · intro h
    rw [hred, if_neg (fun hb => h (hiff.mp hb))]

/-- C3 witness: one user, one line, one batch referencing both. -/
theorem c3_line_cascade_user_setnull_witness :
    (∃ db2, deleteFrom initSchemas
        (mkDB [[("UserID", Value.intV 1)]] [[("ProductionLineID", Value.intV 1)]]
          [[("ProductionLineID", Value.intV 1), ("CreatedByUserID", Value.intV 1)]]
          [] [] [] [] [] []) "ProductionLine"
        (fun r => decide (getVal r "ProductionLineID" = Value.intV 1)) = .ok db2 ∧
      getRows db2 "ProductionBatch" =
        [[("ProductionLineID", Value.intV 1), ("CreatedByUserID", Value.intV 1)]].filter
          (fun r => !decide (getVal r "ProductionLineID" = Value.intV 1))) ∧
    (∃ db3, deleteFrom initSchemas
        (mkDB [[("UserID", Value.intV 1)]] [[("ProductionLineID", Value.intV 1)]]
          [[("ProductionLineID", Value.intV 1), ("CreatedByUserID", Value.intV 1)]]
          [] [] [] [] [] []) "UserAccount"
        (fun r => decide (getVal r "UserID" = Value.intV 1)) = .ok db3 ∧
      getRows db3 "ProductionBatch" =
        [[("ProductionLineID", Value.intV 1), ("CreatedByUserID", Value.intV 1)]].map
          (fun r => if decide (getVal r "CreatedByUserID" = Value.intV 1)
            then setCol r "CreatedByUserID" Value.nullV else r)) :=
  c3_line_cascade_user_setnull [[("UserID", Value.intV 1)]]
    [[("ProductionLineID", Value.intV 1)]]
    [[("ProductionLineID", Value.intV 1), ("CreatedByUserID", Value.intV 1)]]
    [] [] [] [] [] [] 1 1 (by decide) (by decide)

/-- C4 witness: one DefectType row referenced by one DefectLog row. -/
theorem c4_defecttype_delete_restricted_witness :
    (deleteFrom initSchemas
        (mkDB [] [] [] [] [] [[("DefectTypeID", Value.intV 1)]]
          [[("DefectTypeID", Value.intV 1)]] [] []) "DefectType"
        (fun r => decide (getVal r "DefectTypeID" = Value.intV 1))
        = .error "FOREIGN KEY constraint failed"
      ↔ ∃ r ∈ [[("DefectTypeID", Value.intV 1)]], getVal r "DefectTypeID" = Value.intV 1) ∧
    ((¬ ∃ r ∈ [[("DefectTypeID", Value.intV 1)]], getVal r "DefectTypeID" = Value.intV 1) →
      deleteFrom initSchemas
        (mkDB [] [] [] [] [] [[("DefectTypeID", Value.intV 1)]]
          [[("DefectTypeID", Value.intV 1)]] [] []) "DefectType"
        (fun r => decide (getVal r "DefectTypeID" = Value.intV 1))
        = .ok (mkDB [] [] [] [] []
            ([[("DefectTypeID", Value.intV 1)]].filter
              (fun r => !decide (getVal r "DefectTypeID" = Value.intV 1)))
            [[("DefectTypeID", Value.intV 1)]] [] [])) :=
  c4_defecttype_delete_restricted [] [] [] [] [] [[("DefectTypeID", Value.intV 1)]]
    [[("DefectTypeID", Value.intV 1)]] [] [] 1 (by decide)

/-- C5: negative values are rejected for QuantityInStock, ReorderThreshold
and QuantityProduced, so after any sequence of inserts, updates and deletes
on the initialized store these fields are never negative; an InventoryItem
with QuantityInStock = -1 is rejected by the CHECK constraint, while an
InventoryTransaction with a negative QuantityChange is accepted. -/
theorem c5_nonnegative_stock_fields :
    (∀ ops : List Op, nonNegState (runOps initSchemas initState ops)) ∧
    insertRow initSchemas initState "InventoryItem"
      [("ItemName", Value.textV "Widget"), ("QuantityInStock", Value.intV (-1))]
      = .error "NOT NULL or CHECK constraint failed" ∧
    (∃ db1 db2, insertRow initSchemas initState "InventoryItem"
        [("ItemName", Value.textV "Widget")] = .ok db1 ∧
      insertRow initSchemas db1 "InventoryTransaction"
        [("InventoryItemID", Value.intV 1), ("QuantityChange", Value.intV (-5))] = .ok db2 ∧
      ∃ r ∈ getRows db2 "InventoryTransaction",
        getVal r "QuantityChange" = Value.intV (-5)) := by
  refine ⟨?_, by rfl, ⟨_, _, rfl, rfl, by decide⟩⟩
  intro ops
  have hsat : stateSat nonNegP (runOps initSchemas initState ops) :=
    runOps_pres (fun t r c => nonNegP_setCol_null t r c) nonNegP_check ops initState
      stateSat_initState
  constructor
  · intro r hr
    exact (stateSat_getRows hsat "InventoryItem" r hr).1 rfl
  · intro r hr
    exact (stateSat_getRows hsat "ProductionBatch" r hr).2 rfl

/-- C5 witness: the reachable-state invariant at a concrete statement
sequence (an item inserted, restocked, then partially consumed). -/
theorem c5_nonnegative_stock_fields_witness :
    nonNegState (runOps initSchemas initState
      [ .ins "InventoryItem" [("ItemName", Value.textV "Bolt")]
      , .upd "InventoryItem" (fun r => decide (getVal r "ItemName" = Value.textV "Bolt"))
          [("QuantityInStock", Value.intV 7)]
      , .del "InventoryItem" (fun r => decide (getVal r "ItemName" = Value.textV "Nut")) ]) :=
  c5_nonnegative_stock_fields.1
    [ .ins "InventoryItem" [("ItemName", Value.textV "Bolt")]
    , .upd "InventoryItem" (fun r => decide (getVal r "ItemName" = Value.textV "Bolt"))
        [("QuantityInStock", Value.intV 7)]
    , .del "InventoryItem" (fun r => decide (getVal r "ItemName" = Value.textV "Nut")) ]

/-- C10: InventoryItem.ReorderThreshold is declared nullable (no NOT NULL)
with DEFAULT 0; the CHECK passes on NULL, so inserting with an explicit NULL
threshold succeeds and stores NULL, and updating the threshold to NULL
succeeds as well: a NULL threshold is a reachable state. -/
theorem c10_null_reorder_threshold_reachable :
    (colOf inventoryItemTable "ReorderThreshold").map Column.notNull = some false ∧
    (colOf inventoryItemTable "ReorderThreshold").map Column.dflt =
      some (some (.defaultInt 0)) ∧
    evalCheck [("ReorderThreshold", Value.nullV)] (.geZero "ReorderThreshold") = true ∧
    (∃ db2, insertRow initSchemas initState "InventoryItem"
        [("ItemName", Value.textV "Widget"), ("ReorderThreshold", Value.nullV)] = .ok db2 ∧
      ∃ r ∈ getRows db2 "InventoryItem", getVal r "ReorderThreshold" = Value.nullV) ∧
    (∃ db3 db4, insertRow initSchemas initState "InventoryItem"
        [("ItemName", Value.textV "Widget")] = .ok db3 ∧
      updateRows initSchemas db3 "InventoryItem"
        (fun r => decide (getVal r "ItemName" = Value.textV "Widget"))
        [("ReorderThreshold", Value.nullV)] = .ok db4 ∧
      ∃ r ∈ getRows db4 "InventoryItem", getVal r "ReorderThreshold" = Value.nullV) :=
  ⟨rfl, rfl, rfl, ⟨_, rfl, by decide⟩, ⟨_, _, rfl, rfl, by decide⟩⟩

